import Mathlib

/-!
Verification of the diet-tracker backend (app2026).

Shallow embedding of the Python sources:
  * `backend/app/services/openai_service.py` — the estimator response parser
    (`_parse_response`, modelled as `parse_response`) together with a model of
    Python's `json.loads`, `float(...)`, `str.strip()`, the two fence-stripping
    regex substitutions, and the `re.search(r"\x7b.*\x7d", ..., re.DOTALL)`
    fallback; `analyze_food_image` over a fixed raw model response.
  * `backend/app/services/custom_model_service.py` — `predict_food` and
    `hybrid_analyze`, with the loaded network, image decoding and the
    authoritative OpenAI stage abstracted as parameters.
  * `backend/app/services/supabase_service.py` — the pure row-building part of
    `create_food_log` (totals and food-item rows; the database client is out of
    scope).
  * `backend/app/api/food_recognition.py` — the upload validation of
    `recognize_food_image` and the dataset-feedback block of
    `recognize_food_hybrid`.
  * `backend/app/training/train_model.py` — the best-checkpoint retention logic
    of the epoch loop and `CustomFoodDataset.__getitem__`.
  * `backend/app/training/dataset_utils.py` — the per-sample download step of
    `download_supabase_dataset`.

Python floats are modelled as rationals (ℚ); fallible Python code is modelled
with `Except PyErr`.
-/

/-- Python-level failures that the modelled code can raise. -/
inductive PyErr where
  /-- `json.JSONDecodeError` from `json.loads`. -/
  | jsonDecodeError
  /-- `AttributeError`, e.g. calling `.get` on a non-dict. -/
  | attributeError
  /-- `TypeError`, e.g. `float(None)` or iterating a number. -/
  | typeError
  /-- `ValueError`, e.g. `float("abc")`. -/
  | valueError
  /-- Pydantic `ValidationError` (field type or range constraint). -/
  | validationError
  /-- `PIL.UnidentifiedImageError` / decode failure in `Image.open`. -/
  | decodeError
  /-- Failure of the outbound OpenAI call. -/
  | estimationError
  /-- Failure of an outbound storage/network call. -/
  | networkError
deriving Repr, DecidableEq

/-- JSON values as produced by `json.loads`. -/
inductive Json where
  | null
  | bool (b : Bool)
  | num (q : ℚ)
  | str (s : String)
  | arr (elems : List Json)
  | obj (fields : List (String × Json))

/-- Whitespace skipped by `json.loads` between tokens. -/
def jsonWs (c : Char) : Bool :=
  c = ' ' || c = '\t' || c = '\n' || c = '\r'

/-- Drop leading JSON whitespace. -/
def skipWs (cs : List Char) : List Char := cs.dropWhile jsonWs

/-- Value of a hex digit, if `c` is one. -/
def hexVal (c : Char) : Option Nat :=
  if '0' ≤ c ∧ c ≤ '9' then some (c.toNat - '0'.toNat)
  else if 'a' ≤ c ∧ c ≤ 'f' then some (c.toNat - 'a'.toNat + 10)
  else if 'A' ≤ c ∧ c ≤ 'F' then some (c.toNat - 'A'.toNat + 10)
  else none

/-- Decimal digit test. -/
def isDigitC (c : Char) : Bool := '0' ≤ c && c ≤ '9'

/-- Numeric value of a digit string, most significant first. -/
def digitsToNat (ds : List Char) : Nat :=
  ds.foldl (fun a c => 10 * a + (c.toNat - '0'.toNat)) 0

/-- `10 ^ n` on ℚ by structural recursion (kernel-reducible). -/
def pow10 : Nat → ℚ
  | 0 => 1
  | n + 1 => 10 * pow10 n

/-- Body of a JSON string after the opening quote: returns the decoded
characters and the remaining input after the closing quote. -/
def parseStringBody : List Char → Option (List Char × List Char)
  | [] => none
  | '"' :: rest => some ([], rest)
  | '\\' :: esc :: rest =>
    match esc, rest with
    | '"', r => (parseStringBody r).map (fun p => ('"' :: p.1, p.2))
    | '\\', r => (parseStringBody r).map (fun p => ('\\' :: p.1, p.2))
    | '/', r => (parseStringBody r).map (fun p => ('/' :: p.1, p.2))
    | 'b', r => (parseStringBody r).map (fun p => (Char.ofNat 8 :: p.1, p.2))
    | 'f', r => (parseStringBody r).map (fun p => (Char.ofNat 12 :: p.1, p.2))
    | 'n', r => (parseStringBody r).map (fun p => ('\n' :: p.1, p.2))
    | 'r', r => (parseStringBody r).map (fun p => ('\r' :: p.1, p.2))
    | 't', r => (parseStringBody r).map (fun p => ('\t' :: p.1, p.2))
    | 'u', a :: b :: c :: d :: r =>
      match hexVal a, hexVal b, hexVal c, hexVal d with
      | some ha, some hb, some hc, some hd =>
        (parseStringBody r).map
          (fun p => (Char.ofNat (((ha * 16 + hb) * 16 + hc) * 16 + hd) :: p.1, p.2))
      | _, _, _, _ => none
    | _, _ => none
  | c :: rest => (parseStringBody rest).map (fun p => (c :: p.1, p.2))

/-- Split off a run of decimal digits. -/
def readDigits (cs : List Char) : List Char × List Char :=
  (cs.takeWhile isDigitC, cs.dropWhile isDigitC)

/-- Exponent suffix `e`/`E` with optional sign; identity when absent. -/
def parseExponent (q : ℚ) (cs : List Char) : Option (ℚ × List Char) :=
  match cs with
  | 'e' :: r | 'E' :: r =>
    let (sgnNeg, r1) : Bool × List Char :=
      match r with
      | '-' :: r2 => (true, r2)
      | '+' :: r2 => (false, r2)
      | _ => (false, r)
    let (eds, r2) := readDigits r1
    if eds = [] then none
    else
      let e := digitsToNat eds
      some (if sgnNeg then q / pow10 e else q * pow10 e, r2)
  | _ => some (q, cs)

/-- JSON number literal: optional minus, integer part, optional fraction,
optional exponent. -/
def parseNumber (cs : List Char) : Option (ℚ × List Char) :=
  let (neg, cs1) : Bool × List Char :=
    match cs with
    | '-' :: r => (true, r)
    | _ => (false, cs)
  let (ds, cs2) := readDigits cs1
  if ds = [] then none
  else
    let intPart : ℚ := (digitsToNat ds : ℚ)
    let withFrac : Option (ℚ × List Char) :=
      match cs2 with
      | '.' :: r =>
        let (fds, cs3) := readDigits r
        if fds = [] then none
        else some (intPart + (digitsToNat fds : ℚ) / pow10 fds.length, cs3)
      | _ => some (intPart, cs2)
    match withFrac with
    | none => none
    | some (q, cs3) =>
      match parseExponent q cs3 with
      | none => none
      | some (q2, cs4) => some (if neg then -q2 else q2, cs4)

mutual

/-- One JSON value, recursive-descent with fuel. -/
def parseJsonValue : Nat → List Char → Option (Json × List Char)
  | 0, _ => none
  | fuel + 1, cs =>
    match skipWs cs with
    | 'n' :: 'u' :: 'l' :: 'l' :: rest => some (.null, rest)
    | 't' :: 'r' :: 'u' :: 'e' :: rest => some (.bool true, rest)
    | 'f' :: 'a' :: 'l' :: 's' :: 'e' :: rest => some (.bool false, rest)
    | '"' :: rest =>
      match parseStringBody rest with
      | some (s, rest2) => some (.str (String.mk s), rest2)
      | none => none
    | '[' :: rest => parseJsonArray fuel rest
    | '{' :: rest => parseJsonObject fuel rest
    | cs2 =>
      match parseNumber cs2 with
      | some (q, rest) => some (.num q, rest)
      | none => none

/-- Array contents after the opening bracket. -/
def parseJsonArray : Nat → List Char → Option (Json × List Char)
  | 0, _ => none
  | fuel + 1, cs =>
    match skipWs cs with
    | ']' :: rest => some (.arr [], rest)
    | cs2 =>
      match parseJsonArrayItems fuel cs2 with
      | some (vs, rest) => some (.arr vs, rest)
      | none => none

/-- One-or-more comma-separated array elements up to the closing bracket. -/
def parseJsonArrayItems : Nat → List Char → Option (List Json × List Char)
  | 0, _ => none
  | fuel + 1, cs =>
    match parseJsonValue fuel cs with
    | none => none
    | some (v, rest) =>
      match skipWs rest with
      | ',' :: rest2 =>
        match parseJsonArrayItems fuel rest2 with
        | some (vs, rest3) => some (v :: vs, rest3)
        | none => none
      | ']' :: rest2 => some ([v], rest2)
      | _ => none

/-- Object contents after the opening brace. -/
def parseJsonObject : Nat → List Char → Option (Json × List Char)
  | 0, _ => none
  | fuel + 1, cs =>
    match skipWs cs with
    | '}' :: rest => some (.obj [], rest)
    | cs2 =>
      match parseJsonObjectMembers fuel cs2 with
      | some (ms, rest) => some (.obj ms, rest)
      | none => none

/-- One-or-more `"key": value` members up to the closing brace. -/
def parseJsonObjectMembers : Nat → List Char → Option (List (String × Json) × List Char)
  | 0, _ => none
  | fuel + 1, cs =>
    match skipWs cs with
    | '"' :: rest =>
      match parseStringBody rest with
      | none => none
      | some (k, rest2) =>
        match skipWs rest2 with
        | ':' :: rest3 =>
          match parseJsonValue fuel rest3 with
          | none => none
          | some (v, rest4) =>
            match skipWs rest4 with
            | ',' :: rest5 =>
              match parseJsonObjectMembers fuel rest5 with
              | some (ms, rest6) => some ((String.mk k, v) :: ms, rest6)
              | none => none
            | '}' :: rest5 => some ([(String.mk k, v)], rest5)
            | _ => none
        | _ => none
    | _ => none

end

/-- Model of Python `json.loads`: a single JSON document with optional
surrounding whitespace; `none` stands for `json.JSONDecodeError`. -/
def jsonLoads (s : String) : Option Json :=
  match parseJsonValue (3 * s.length + 3) s.data with
  | some (v, rest) => if skipWs rest = [] then some v else none
  | none => none

/-- Whitespace class of Python's `str.strip()` and the regex `\s`
(ASCII fragment). -/
def pyWs (c : Char) : Bool :=
  c = ' ' || c = '\t' || c = '\n' || c = '\r' || c = '\x0b' || c = '\x0c'

/-- Python `str.strip()`. -/
def pyStrip (s : String) : String :=
  String.mk ((s.data.dropWhile pyWs).reverse.dropWhile pyWs |>.reverse)

/-- The two fence-stripping substitutions of `_parse_response`:
`re.sub(r"^³³³(?:json)?\s*", "", ·)` then `re.sub(r"\s*³³³$", "", ·)`
(³³³ standing for three backticks), applied to the stripped raw text. -/
def stripFences (raw : String) : String :=
  let cs := (pyStrip raw).data
  let cs1 :=
    match cs with
    | '`' :: '`' :: '`' :: 'j' :: 's' :: 'o' :: 'n' :: rest => rest.dropWhile pyWs
    | '`' :: '`' :: '`' :: rest => rest.dropWhile pyWs
    | _ => cs
  let cs2 :=
    match cs1.reverse with
    | '`' :: '`' :: '`' :: rest => (rest.dropWhile pyWs).reverse
    | _ => cs1
  String.mk cs2

/-- Model of `re.search(r"\x7b.*\x7d", cleaned, re.DOTALL)`: the greedy match
runs from the first `\x7b` to the last `\x7d`, provided the latter comes
after the former. -/
def braceSpan (s : String) : Option String :=
  let cs := s.data
  match cs.findIdx? (fun c => c = '{') with
  | none => none
  | some i =>
    match cs.reverse.findIdx? (fun c => c = '}') with
    | none => none
    | some rj =>
      let j := cs.length - 1 - rj
      if i < j then some (String.mk ((cs.take (j + 1)).drop i)) else none

/-- Python float-literal syntax accepted by `float(str)` (sign, digits,
optional fraction and exponent, surrounding whitespace). -/
def pyFloatOfChars (cs : List Char) : Option ℚ :=
  let cs0 := (cs.dropWhile pyWs).reverse.dropWhile pyWs |>.reverse
  let (neg, cs1) : Bool × List Char :=
    match cs0 with
    | '-' :: r => (true, r)
    | '+' :: r => (false, r)
    | _ => (false, cs0)
  let (ds, cs2) := readDigits cs1
  let mantissa : Option (ℚ × List Char) :=
    match cs2 with
    | '.' :: r =>
      let (fds, cs3) := readDigits r
      if ds = [] ∧ fds = [] then none
      else some ((digitsToNat ds : ℚ) + (digitsToNat fds : ℚ) / pow10 fds.length, cs3)
    | _ => if ds = [] then none else some ((digitsToNat ds : ℚ), cs2)
  match mantissa with
  | none => none
  | some (q, cs3) =>
    match parseExponent q cs3 with
    | none => none
    | some (q2, cs4) => if cs4 = [] then some (if neg then -q2 else q2) else none

/-- Model of Python `float(x)` on a JSON-decoded value: numbers pass through,
booleans coerce to 0/1, numeric strings parse, everything else raises. -/
def pyFloat : Json → Except PyErr ℚ
  | .num q => .ok q
  | .bool b => .ok (if b then 1 else 0)
  | .str s =>
    match pyFloatOfChars s.data with
    | some q => .ok q
    | none => .error .valueError
  | .null => .error .typeError
  | .arr _ => .error .typeError
  | .obj _ => .error .typeError

/-- `dict.get` on a JSON object: for duplicate keys `json.loads` keeps the
last occurrence. -/
def lookupLast (fields : List (String × Json)) (k : String) : Option Json :=
  (fields.reverse.find? (fun kv => kv.1 == k)).map (fun kv => kv.2)

/-- Python `for _ in v`: lists yield elements, strings yield one-character
strings, dicts yield their keys, other values raise `TypeError`. -/
def jsonIterate : Json → Except PyErr (List Json)
  | .arr xs => .ok xs
  | .str s => .ok (s.data.map (fun c => Json.str (String.mk [c])))
  | .obj fs => .ok (fs.map (fun kv => Json.str kv.1))
  | .null => .error .typeError
  | .bool _ => .error .typeError
  | .num _ => .error .typeError

/-- `RecognitionSource` enum from `food_model.py`. -/
inductive RecognitionSource where
  | openai
  | custom_model
  | hybrid
  | manual
deriving Repr, DecidableEq

/-- `AIFoodItem` pydantic model: one detected food item. -/
structure AIFoodItem where
  food_name : String
  serving_size : Option String
  calories : ℚ
  protein : ℚ
  carbs : ℚ
  fat : ℚ
  /-- Pydantic constrains this to `[0, 100]`. -/
  confidence : ℚ
deriving Repr, DecidableEq

/-- `AIRecognitionResult` pydantic model. -/
structure AIRecognitionResult where
  food_items : List AIFoodItem
  total_calories : ℚ
  total_protein : ℚ
  total_carbs : ℚ
  total_fat : ℚ
  /-- Pydantic constrains this to `[0, 100]`. -/
  ai_confidence : ℚ
  source : RecognitionSource
  raw_response : Option String
deriving Repr, DecidableEq

/-- `CustomModelPrediction` pydantic model (local classifier output). -/
structure CustomModelPrediction where
  food_name : String
  /-- Maximum softmax probability, in `[0, 1]`. -/
  confidence : ℚ
  food_101_class : Option String
deriving Repr, DecidableEq

/-- The dict returned by `_parse_response`. -/
structure ParsedResponse where
  food_items : List AIFoodItem
  overall_confidence : ℚ
deriving Repr, DecidableEq

/-- One AIFoodItem from one entry of the parsed `food_items` list, mirroring
the loop body of `_parse_response` (openai_service.py:173-185): `.get` on a
non-dict raises; macro fields default to `0`, confidence to `50`, name to
`"Unknown"`; each value goes through `float(...)`; pydantic then validates
the field types and the confidence range. -/
def buildFoodItem (j : Json) : Except PyErr AIFoodItem :=
  match j with
  | .obj fields =>
    match pyFloat ((lookupLast fields "calories").getD (.num 0)) with
    | .error e => .error e
    | .ok cal =>
    match pyFloat ((lookupLast fields "protein").getD (.num 0)) with
    | .error e => .error e
    | .ok prot =>
    match pyFloat ((lookupLast fields "carbs").getD (.num 0)) with
    | .error e => .error e
    | .ok carb =>
    match pyFloat ((lookupLast fields "fat").getD (.num 0)) with
    | .error e => .error e
    | .ok fatv =>
    match pyFloat ((lookupLast fields "confidence").getD (.num 50)) with
    | .error e => .error e
    | .ok conf =>
    match (lookupLast fields "food_name").getD (.str "Unknown") with
    | .str name =>
      match (lookupLast fields "serving_size").getD .null with
      | .null =>
        if conf < 0 ∨ 100 < conf then .error .validationError
        else .ok ⟨name, none, cal, prot, carb, fatv, conf⟩
      | .str s =>
        if conf < 0 ∨ 100 < conf then .error .validationError
        else .ok ⟨name, some s, cal, prot, carb, fatv, conf⟩
      | _ => .error .validationError
    | _ => .error .validationError
  | _ => .error .attributeError

/-- Body of `_parse_response` once a JSON value has been decoded
(openai_service.py:173-190): `data.get` raises on a non-dict; `food_items`
defaults to the empty list; `overall_confidence` defaults to `50`. -/
def parseResponseOfJson (data : Json) : Except PyErr ParsedResponse :=
  match data with
  | .obj fields =>
    match jsonIterate ((lookupLast fields "food_items").getD (.arr [])) with
    | .error e => .error e
    | .ok rawItems =>
      match rawItems.mapM buildFoodItem with
      | .error e => .error e
      | .ok items =>
        match pyFloat ((lookupLast fields "overall_confidence").getD (.num 50)) with
        | .error e => .error e
        | .ok overall => .ok ⟨items, overall⟩
  | _ => .error .attributeError

/-- `_parse_response` (openai_service.py:152-190): strip code fences, try a
direct `json.loads`; on decode failure search for a `\x7b.*\x7d` span and
feed it to a second, *unguarded* `json.loads`; only when no span exists
return the empty result with zero confidence. -/
def parse_response (raw_text : String) : Except PyErr ParsedResponse :=
  let cleaned := stripFences raw_text
  match jsonLoads cleaned with
  | some data => parseResponseOfJson data
  | none =>
    match braceSpan cleaned with
    | some extracted =>
      match jsonLoads extracted with
      | some data => parseResponseOfJson data
      | none => .error .jsonDecodeError
    | none => .ok ⟨[], 0⟩

/-- Sum of one macro over a list of food items. -/
def sumOver (f : AIFoodItem → ℚ) (items : List AIFoodItem) : ℚ :=
  (items.map f).sum

/-- `analyze_food_image` (openai_service.py:48-105) downstream of the OpenAI
call: the network response text is the `raw_text` parameter. Totals are
recomputed by summing the parsed items; pydantic validates the overall
confidence range on `AIRecognitionResult` construction. -/
def analyze_food_image (raw_text : String) : Except PyErr AIRecognitionResult :=
  match parse_response raw_text with
  | .error e => .error e
  | .ok parsed =>
    if parsed.overall_confidence < 0 ∨ 100 < parsed.overall_confidence then
      .error .validationError
    else
      .ok
        { food_items := parsed.food_items
          total_calories := sumOver AIFoodItem.calories parsed.food_items
          total_protein := sumOver AIFoodItem.protein parsed.food_items
          total_carbs := sumOver AIFoodItem.carbs parsed.food_items
          total_fat := sumOver AIFoodItem.fat parsed.food_items
          ai_confidence := parsed.overall_confidence
          source := .openai
          raw_response := some raw_text }

/-- `FoodItemCreate` pydantic model (manual entry item). -/
structure FoodItemCreate where
  food_name : String
  serving_size : Option String
  calories : ℚ
  protein : ℚ
  carbs : ℚ
  fat : ℚ
deriving Repr, DecidableEq

/-- The `food_logs` row assembled by `create_food_log`
(supabase_service.py:110-121); database-generated columns omitted. -/
structure FoodLogRow where
  user_id : String
  image_url : Option String
  total_calories : ℚ
  total_protein : ℚ
  total_carbs : ℚ
  total_fat : ℚ
  ai_confidence : Option ℚ
  meal_type : String
  notes : Option String
deriving Repr, DecidableEq

/-- One `food_items` row (supabase_service.py:128-150). -/
structure FoodItemRow where
  food_name : String
  serving_size : Option String
  calories : ℚ
  protein : ℚ
  carbs : ℚ
  fat : ℚ
deriving Repr, DecidableEq

/-- Row-building logic of `create_food_log` (supabase_service.py:69-155):
totals are copied from the AI result when present, otherwise recomputed from
the manual items; the child rows come from the same source. Database inserts
are outside the model. -/
def create_food_log (user_id : String) (ai_result : Option AIRecognitionResult)
    (image_url : Option String) (meal_type : String) (notes : Option String)
    (manual_items : Option (List FoodItemCreate)) :
    FoodLogRow × List FoodItemRow :=
  match ai_result with
  | some r =>
    (⟨user_id, image_url, r.total_calories, r.total_protein, r.total_carbs,
      r.total_fat, some r.ai_confidence, meal_type, notes⟩,
     r.food_items.map (fun it =>
       ⟨it.food_name, it.serving_size, it.calories, it.protein, it.carbs, it.fat⟩))
  | none =>
    let ms := manual_items.getD []
    (⟨user_id, image_url,
      (ms.map FoodItemCreate.calories).sum,
      (ms.map FoodItemCreate.protein).sum,
      (ms.map FoodItemCreate.carbs).sum,
      (ms.map FoodItemCreate.fat).sum,
      none, meal_type, notes⟩,
     ms.map (fun it =>
       ⟨it.food_name, it.serving_size, it.calories, it.protein, it.carbs, it.fat⟩))

/-- Preprocessed image tensor (output of the inference transform),
abstracted. -/
abbrev ImageTensor : Type := List ℚ

/-- `predict_food` (custom_model_service.py:124-157): with no loaded model it
returns `None` before touching the image; with a model, the image must decode
(`Image.open ... .convert("RGB")` can raise) and inference is a pure function
of the decoded tensor. -/
def predict_food (model : Option (ImageTensor → CustomModelPrediction))
    (decoded : Except PyErr ImageTensor) :
    Except PyErr (Option CustomModelPrediction) :=
  match model with
  | none => .ok none
  | some net =>
    match decoded with
    | .error e => .error e
    | .ok img => .ok (some (net img))

/-- The value returned by `hybrid_analyze` (custom_model_service.py:194-198). -/
structure HybridOutput where
  result : AIRecognitionResult
  custom_prediction : Option CustomModelPrediction
  source : RecognitionSource
deriving Repr, DecidableEq

/-- Step 1 of `hybrid_analyze` (custom_model_service.py:173-188): when the
feature flag is on, run `predict_food`; a truthy prediction whose confidence
meets the threshold switches the provenance to `hybrid`. -/
def localStage (use_custom_model : Bool) (threshold : ℚ)
    (model : Option (ImageTensor → CustomModelPrediction))
    (decoded : Except PyErr ImageTensor) :
    Except PyErr (Option CustomModelPrediction × RecognitionSource) :=
  if use_custom_model then
    match predict_food model decoded with
    | .error e => .error e
    | .ok (some p) =>
      if threshold ≤ p.confidence then .ok (some p, .hybrid)
      else .ok (some p, .openai)
    | .ok none => .ok (none, .openai)
  else .ok (none, .openai)

/-- `hybrid_analyze` (custom_model_service.py:160-198): the local stage runs
first (its exceptions propagate — there is no try/except around
`predict_food`), then the authoritative OpenAI stage always runs; its result
is returned with only the `source` field rewritten. `aiStage` is the outcome
of `analyze_food_image` on the same image. -/
def hybrid_analyze (use_custom_model : Bool) (threshold : ℚ)
    (model : Option (ImageTensor → CustomModelPrediction))
    (decoded : Except PyErr ImageTensor)
    (aiStage : Except PyErr AIRecognitionResult) :
    Except PyErr HybridOutput :=
  match localStage use_custom_model threshold model decoded with
  | .error e => .error e
  | .ok (cp, used) =>
    match aiStage with
    | .error e => .error e
    | .ok ai => .ok ⟨{ ai with source := used }, cp, used⟩

/-- `DatasetSample` pydantic model (one `training_dataset` row). -/
structure DatasetSample where
  image_url : String
  food_name : String
  calories : ℚ
  protein : ℚ
  carbs : ℚ
  fat : ℚ
  verified : Bool
  source : String
deriving Repr, DecidableEq

/-- Python truthiness of the optional image URL (`if ... and image_url:`). -/
def truthyStr : Option String → Bool
  | none => false
  | some s => !s.isEmpty

/-- Dataset-feedback block of `recognize_food_hybrid`
(food_recognition.py:182-199): when the overall confidence reaches 80 and the
image URL is truthy, one unverified `ai_auto` sample is saved per food item;
otherwise nothing is written. -/
def dataset_samples_to_write (ai : AIRecognitionResult)
    (image_url : Option String) : List DatasetSample :=
  if 80 ≤ ai.ai_confidence ∧ truthyStr image_url = true then
    ai.food_items.map (fun it =>
      ⟨image_url.getD "", it.food_name, it.calories, it.protein, it.carbs,
       it.fat, false, "ai_auto"⟩)
  else []

/-- Per-epoch checkpoint decisions of the training loop
(train_model.py:215-299): starting from `best_accuracy = 0.0`, an epoch saves
exactly when its validation accuracy strictly exceeds the running best, which
is then updated to it. -/
def trainFold : ℚ → List ℚ → List Bool
  | _, [] => []
  | best, acc :: rest =>
    if best < acc then true :: trainFold acc rest
    else false :: trainFold best rest

/-- Save decision per epoch for a run with the given validation accuracies. -/
def saveFlags (accs : List ℚ) : List Bool := trainFold 0 accs

/-- Number of checkpoint writes in a run. -/
def checkpointWrites (accs : List ℚ) : Nat := (saveFlags accs).count true

/-- Best validation accuracy seen strictly before epoch `i` (the running
best starts at `0.0`, and validation accuracies are nonnegative by
construction: `100 * val_correct / val_total`). -/
def bestSoFar (accs : List ℚ) (i : Nat) : ℚ := (accs.take i).foldl max 0

/-- `CustomFoodDataset.__getitem__` (train_model.py:107-112): `Image.open` has
no try/except, so a decode failure propagates; otherwise the optional
transform is applied. -/
def dataset_getitem (decoded : Except PyErr ImageTensor)
    (transform : Option (ImageTensor → ImageTensor)) (label : Nat) :
    Except PyErr (ImageTensor × Nat) :=
  match decoded with
  | .error e => .error e
  | .ok img =>
    .ok (match transform with
         | some t => t img
         | none => img, label)

/-- Per-sample download step of `download_supabase_dataset`
(dataset_utils.py:62-70): the whole fetch/decode/save pipeline sits inside
`try/except`, so a failing sample is logged and skipped (`none`), never
propagated. -/
def download_sample (pipeline : Except PyErr String) :
    Except PyErr (Option String) :=
  match pipeline with
  | .ok path => .ok (some path)
  | .error _ => .ok none

/-- `HTTPException` as raised by the endpoints. -/
structure HTTPErrorResponse where
  status_code : Nat
  detail : String
deriving Repr, DecidableEq

/-- Content types accepted by the recognition endpoints
(food_recognition.py:45). -/
def allowedContentTypes : List String := ["image/jpeg", "image/png", "image/webp"]

/-- Validation and dispatch of `recognize_food_image`
(food_recognition.py:44-57): content-type check, then the 10 MiB size check,
and only then the estimator call (whose failure becomes a 500). The
`estimator` parameter stands for the outcome of the OpenAI stage. -/
def recognize_food_image (content_type : String) (image_size : Nat)
    (estimator : Except PyErr AIRecognitionResult) :
    Except HTTPErrorResponse AIRecognitionResult :=
  if content_type ∉ allowedContentTypes then
    .error ⟨400, "Only JPEG, PNG, and WebP images are supported"⟩
  else if 10 * 1024 * 1024 < image_size then
    .error ⟨400, "Image too large (max 10MB)"⟩
  else
    match estimator with
    | .error _ => .error ⟨500, "AI analysis failed"⟩
    | .ok r => .ok r

/-! ## Shared concrete values used by witnesses -/

/-- A concrete estimator result for witness instantiations. -/
def sampleAI : AIRecognitionResult :=
  ⟨[⟨"Pizza", some "1 slice", 285, 12, 36, 10, 90⟩],
   285, 12, 36, 10, 88, .openai, some "resp"⟩

/-- A concrete fully-confident local prediction. -/
def samplePred : CustomModelPrediction := ⟨"Pizza", 1, some "pizza"⟩

/-! ## Helper lemmas -/

/-- Per-epoch save decision of `trainFold`: epoch `i` saves iff its accuracy
strictly exceeds the running best over the earlier epochs. -/
theorem trainFold_getD_iff (accs : List ℚ) : ∀ (b : ℚ) (i : ℕ), i < accs.length →
    ((trainFold b accs).getD i false = true ↔
      (accs.take i).foldl max b < accs.getD i 0) := by
  induction accs with
  | nil => intro b i h; simp at h
  | cons a rest ih =>
    intro b i h
    cases i with
    | zero =>
      by_cases hba : b < a <;> simp [trainFold, hba]
    | succ i =>
      have hlen : i < rest.length := by simpa using h
      by_cases hba : b < a
      · have h1 := ih (max b a) i hlen
        rw [max_eq_right hba.le] at h1
        simpa [trainFold, hba, max_eq_right hba.le] using h1
      · have h1 := ih (max b a) i hlen
        rw [max_eq_left (not_lt.mp hba)] at h1
        simpa [trainFold, hba, max_eq_left (not_lt.mp hba)] using h1

/-! ## Claim theorems -/

/-- C6: during a training run, a checkpoint is persisted after an epoch iff
that epoch's validation accuracy strictly exceeds the best validation
accuracy seen so far in the run (the running best starts at the loop's
initial `best_accuracy = 0.0`; accuracies are nonnegative by construction);
on the validation sequence [40, 55, 50, 60] exactly 3 checkpoint writes
occur. -/
theorem checkpoint_saved_iff_strict_improvement :
    (∀ (accs : List ℚ) (i : ℕ), i < accs.length →
      ((saveFlags accs).getD i false = true ↔
        bestSoFar accs i < accs.getD i 0)) ∧
    checkpointWrites [(40 : ℚ), 55, 50, 60] = 3 := by
  refine ⟨fun accs i h => ?_, by decide⟩
  simpa [saveFlags, bestSoFar] using trainFold_getD_iff accs 0 i h

/-- Witness for C6 at the spec's own sequence: epoch 3 (accuracy 50, running
best 55) does not save. -/
theorem checkpoint_saved_iff_strict_improvement_witness :
    ((saveFlags [(40 : ℚ), 55, 50, 60]).getD 2 false = true ↔
      bestSoFar [(40 : ℚ), 55, 50, 60] 2 < ([(40 : ℚ), 55, 50, 60]).getD 2 0) :=
  checkpoint_saved_iff_strict_improvement.1 [(40 : ℚ), 55, 50, 60] 2 (by decide)

/-- C9 counterexample: a decode failure inside
`CustomFoodDataset.__getitem__` is not skipped — it propagates and aborts
the training run. -/
theorem training_getitem_decode_failure_aborts :
    dataset_getitem (.error .decodeError) none 7 = .error .decodeError ∧
    (dataset_getitem (.error .decodeError) none 7).isOk = false :=
  ⟨rfl, rfl⟩

/-- C9 amended: per-image failures are logged and skipped during the
Supabase dataset *download/export* step, but a decode failure during
training-time dataset loading (`CustomFoodDataset.__getitem__`) propagates
unchanged and aborts the run; a successful decode yields the transformed
sample. -/
theorem training_dataset_decode_failure_handling :
    (∀ pipeline : Except PyErr String, (download_sample pipeline).isOk = true) ∧
    (∀ (e : PyErr) (t : Option (ImageTensor → ImageTensor)) (l : ℕ),
      dataset_getitem (.error e) t l = .error e) ∧
    (∀ (img : ImageTensor) (t : ImageTensor → ImageTensor) (l : ℕ),
      dataset_getitem (.ok img) (some t) l = .ok (t img, l)) := by
  refine ⟨fun pipeline => ?_, fun e t l => rfl, fun img t l => rfl⟩
  cases pipeline <;> rfl

/-- C10: the image-recognition endpoint rejects an unsupported content type
or an image over 10 MiB with HTTP 400 regardless of (hence before) the
estimator stage, and under a supported type and size neither of these 400
failures is produced. -/
theorem recognize_image_validation :
    ∀ (ct : String) (sz : ℕ) (est : Except PyErr AIRecognitionResult),
      (ct ∉ allowedContentTypes →
        recognize_food_image ct sz est =
          .error ⟨400, "Only JPEG, PNG, and WebP images are supported"⟩) ∧
      (ct ∈ allowedContentTypes → 10 * 1024 * 1024 < sz →
        recognize_food_image ct sz est =
          .error ⟨400, "Image too large (max 10MB)"⟩) ∧
      (ct ∈ allowedContentTypes → sz ≤ 10 * 1024 * 1024 →
        recognize_food_image ct sz est ≠
          .error ⟨400, "Only JPEG, PNG, and WebP images are supported"⟩ ∧
        recognize_food_image ct sz est ≠
          .error ⟨400, "Image too large (max 10MB)"⟩) := by
  intro ct sz est
  refine ⟨fun hct => ?_, fun hct hsz => ?_, fun hct hsz => ?_⟩
  · simp [recognize_food_image, hct]
  · simp [recognize_food_image, hct, hsz]
  · have hsz' : ¬ (10 * 1024 * 1024 < sz) := not_lt.mpr hsz
    cases est with
    | error e => simp [recognize_food_image, hct, hsz']
    | ok r => simp [recognize_food_image, hct, hsz']

/-- Witness for C10: a GIF upload is rejected with the content-type 400. -/
theorem recognize_image_validation_witness :
    recognize_food_image "image/gif" 5 (.error .estimationError) =
      .error ⟨400, "Only JPEG, PNG, and WebP images are supported"⟩ :=
  (recognize_image_validation "image/gif" 5 (.error .estimationError)).1 (by decide)

/-- C5: in the hybrid flow's dataset-feedback block, TrainingSample rows are
written iff the overall confidence reaches the fixed bar of 80 and a truthy
image reference exists; in that case exactly one unverified sample per food
item is written (the list equals a one-to-one map over the items), and
otherwise no write occurs. -/
theorem dataset_feedback_iff_confident_with_image :
    ∀ (ai : AIRecognitionResult) (url : Option String),
      (80 ≤ ai.ai_confidence ∧ truthyStr url = true →
        dataset_samples_to_write ai url =
          ai.food_items.map (fun it =>
            ⟨url.getD "", it.food_name, it.calories, it.protein, it.carbs,
             it.fat, false, "ai_auto"⟩) ∧
        (dataset_samples_to_write ai url).length = ai.food_items.length) ∧
      (¬(80 ≤ ai.ai_confidence ∧ truthyStr url = true) →
        dataset_samples_to_write ai url = []) := by
  intro ai url
  refine ⟨fun h => ⟨?_, ?_⟩, fun h => ?_⟩
  · simp [dataset_samples_to_write, h]
  · simp [dataset_samples_to_write, h]
  · simp [dataset_samples_to_write, h]

/-- Witness for C5: a confident result (88 ≥ 80) with an image URL writes
exactly one unverified sample per item. -/
theorem dataset_feedback_iff_confident_with_image_witness :
    dataset_samples_to_write sampleAI (some "https://img/1.jpg") =
      sampleAI.food_items.map (fun it =>
        ⟨(some "https://img/1.jpg").getD "", it.food_name, it.calories,
         it.protein, it.carbs, it.fat, false, "ai_auto"⟩) ∧
    (dataset_samples_to_write sampleAI (some "https://img/1.jpg")).length =
      sampleAI.food_items.length :=
  (dataset_feedback_iff_confident_with_image sampleAI (some "https://img/1.jpg")).1
    ⟨by decide, rfl⟩

/-- C3 counterexample: on the input "\x7bx\x7d" the direct parse fails, the
brace-span fallback extracts the same text, and the second — unguarded —
`json.loads` raises `JSONDecodeError` instead of returning the empty
result: the parser is not total. -/
theorem parse_response_raises_on_invalid_span :
    parse_response "\x7bx\x7d" = .error .jsonDecodeError ∧
    (parse_response "\x7bx\x7d").isOk = false :=
  ⟨rfl, rfl⟩

/-- C3 amended: the parser strips code fences, attempts a direct parse, and
falls back to the first-brace-to-last-brace span; when the input is
unparsable and contains no such span it returns the well-formed empty
result with zero confidence, and fenced or prose-wrapped JSON objects parse
correctly — but when the extracted span itself fails to parse (or the
parsed value has an unexpected shape) the parser raises rather than
degrading, so it is not exception-free on every input. -/
theorem parse_response_defensive_amended :
    (∀ s : String, jsonLoads (stripFences s) = none →
      braceSpan (stripFences s) = none → parse_response s = .ok ⟨[], 0⟩) ∧
    parse_response "```json\n\x7b\"food_items\": [], \"overall_confidence\": 90\x7d\n```" =
      .ok ⟨[], 90⟩ ∧
    parse_response
        "Here you go: \x7b\"food_items\": [], \"overall_confidence\": 75\x7d hope that helps" =
      .ok ⟨[], 75⟩ := by
  refine ⟨fun s h1 h2 => ?_, rfl, rfl⟩
  simp [parse_response, h1, h2]

/-- Witness for C3 amended: a response with no JSON object degrades to the
empty zero-confidence result. -/
theorem parse_response_defensive_amended_witness :
    parse_response "no json here at all" = .ok ⟨[], 0⟩ :=
  parse_response_defensive_amended.1 "no json here at all" rfl rfl

/-- C8 counterexample: for the item object `\x7b\x7d` every macro defaults to
0 and the name to "Unknown", but the absent per-item confidence and the
absent overall confidence both default to 50 — not 0. -/
theorem parse_defaults_fifty_counterexample :
    parse_response "\x7b\"food_items\": [\x7b\x7d]\x7d" =
      .ok ⟨[⟨"Unknown", none, 0, 0, 0, 0, 50⟩], 50⟩ ∧
    (50 : ℚ) ≠ 0 :=
  ⟨rfl, by decide⟩

/-- C8 amended: when the parser builds food items from a parsed JSON object,
absent macro fields (calories, protein, carbs, fat) default to 0 and an
absent food name defaults to "Unknown", while an absent per-item confidence
and an absent overall confidence default to 50. -/
theorem parse_defaults_amended :
    (∀ (fields : List (String × Json)) (it : AIFoodItem),
      buildFoodItem (.obj fields) = .ok it →
      (lookupLast fields "food_name" = none → it.food_name = "Unknown") ∧
      (lookupLast fields "calories" = none → it.calories = 0) ∧
      (lookupLast fields "protein" = none → it.protein = 0) ∧
      (lookupLast fields "carbs" = none → it.carbs = 0) ∧
      (lookupLast fields "fat" = none → it.fat = 0) ∧
      (lookupLast fields "confidence" = none → it.confidence = 50)) ∧
    (∀ (fields : List (String × Json)) (r : ParsedResponse),
      parseResponseOfJson (.obj fields) = .ok r →
      lookupLast fields "overall_confidence" = none →
      r.overall_confidence = 50) := by
  constructor
  · intro fields it h
    unfold buildFoodItem at h
    repeat' split at h
    all_goals first
      | exact Except.noConfusion h
      | (injection h with h'; subst h';
         refine ⟨fun hn => ?_, fun hn => ?_, fun hn => ?_, fun hn => ?_,
                 fun hn => ?_, fun hn => ?_⟩ <;>
           simp_all [pyFloat])
  · intro fields r h hnone
    unfold parseResponseOfJson at h
    repeat' split at h
    all_goals first
      | exact Except.noConfusion h
      | (injection h with h'; subst h'; simp_all [pyFloat])

/-- Witness for C8 amended: the all-absent item object yields the default
item, and the parse of an object with no confidence key yields 50. -/
theorem parse_defaults_amended_witness :
    ((buildFoodItem (.obj []) = .ok ⟨"Unknown", none, 0, 0, 0, 0, 50⟩ →
        ((⟨"Unknown", none, 0, 0, 0, 0, 50⟩ : AIFoodItem).food_name = "Unknown")) ∧
      (⟨"Unknown", none, 0, 0, 0, 0, 50⟩ : AIFoodItem).confidence = 50) :=
  ⟨fun h => ((parse_defaults_amended.1 [] ⟨"Unknown", none, 0, 0, 0, 0, 50⟩ h).1 rfl),
   ((parse_defaults_amended.1 [] ⟨"Unknown", none, 0, 0, 0, 0, 50⟩ rfl).2.2.2.2.2 rfl)⟩

/-- The nutrition payload of a recognition result: food items, the four
macro totals, and the overall confidence — everything except the
provenance tag and the raw response. -/
def nutritionOf (r : AIRecognitionResult) :
    List AIFoodItem × ℚ × ℚ × ℚ × ℚ × ℚ :=
  (r.food_items, r.total_calories, r.total_protein, r.total_carbs, r.total_fat,
   r.ai_confidence)

/-- A successful hybrid run returns the authoritative result unchanged except
for its `source` field. -/
theorem hybrid_analyze_ok_result (u : Bool) (t : ℚ)
    (m : Option (ImageTensor → CustomModelPrediction))
    (d : Except PyErr ImageTensor) (ai : AIRecognitionResult) (o : HybridOutput)
    (h : hybrid_analyze u t m d (.ok ai) = .ok o) :
    o.result = { ai with source := o.source } := by
  unfold hybrid_analyze at h
  rcases hls : localStage u t m d with e | ⟨cp, used⟩ <;> rw [hls] at h
  · exact Except.noConfusion h
  · simp only [Except.ok.injEq] at h
    subst h
    rfl

/-- C1: for a fixed authoritative-stage response, the nutrition numbers of
the hybrid result (items, macro totals, overall confidence) are those of the
authoritative stage and are identical across any two local-stage scenarios —
classifier confident, unconfident, or not run at all; the local stage can
only influence the provenance tag and the surfaced side-channel
prediction. -/
theorem hybrid_nutrition_independent_of_local_stage :
    ∀ (u₁ u₂ : Bool) (t₁ t₂ : ℚ)
      (m₁ m₂ : Option (ImageTensor → CustomModelPrediction))
      (d₁ d₂ : Except PyErr ImageTensor) (ai : AIRecognitionResult)
      (o₁ o₂ : HybridOutput),
      hybrid_analyze u₁ t₁ m₁ d₁ (.ok ai) = .ok o₁ →
      hybrid_analyze u₂ t₂ m₂ d₂ (.ok ai) = .ok o₂ →
      nutritionOf o₁.result = nutritionOf ai ∧
      nutritionOf o₂.result = nutritionOf ai ∧
      nutritionOf o₁.result = nutritionOf o₂.result := by
  intro u₁ u₂ t₁ t₂ m₁ m₂ d₁ d₂ ai o₁ o₂ h1 h2
  have e1 := hybrid_analyze_ok_result _ _ _ _ _ _ h1
  have e2 := hybrid_analyze_ok_result _ _ _ _ _ _ h2
  rw [e1, e2]
  exact ⟨rfl, rfl, rfl⟩

/-- Witness for C1: a confident local run (threshold 1, confidence 1) and a
disabled local stage produce the same nutrition payload for the same
authoritative response. -/
theorem hybrid_nutrition_independent_of_local_stage_witness :
    nutritionOf (HybridOutput.mk { sampleAI with source := .hybrid }
        (some samplePred) .hybrid).result = nutritionOf sampleAI ∧
    nutritionOf (HybridOutput.mk { sampleAI with source := .openai }
        none .openai).result = nutritionOf sampleAI ∧
    nutritionOf (HybridOutput.mk { sampleAI with source := .hybrid }
        (some samplePred) .hybrid).result =
      nutritionOf (HybridOutput.mk { sampleAI with source := .openai }
        none .openai).result :=
  hybrid_nutrition_independent_of_local_stage true false 1 1
    (some fun _ => samplePred) none (.ok []) (.ok []) sampleAI _ _ rfl rfl

/-- Whether the local stage produced a truthy prediction whose confidence
meets the threshold. -/
def confidentPrediction (t : ℚ) :
    Except PyErr (Option CustomModelPrediction) → Bool
  | .ok (some p) => decide (t ≤ p.confidence)
  | _ => false

/-- C2: a successful hybrid run resolves the provenance tag to `hybrid`
("classifier-assisted") exactly when the local stage was enabled and
produced a prediction with confidence at or above the threshold; in every
other successful case (below threshold, model unavailable, stage disabled)
the tag is `openai` ("estimator-only"). -/
theorem hybrid_source_iff_local_confident :
    ∀ (u : Bool) (t : ℚ) (m : Option (ImageTensor → CustomModelPrediction))
      (d : Except PyErr ImageTensor) (aiStage : Except PyErr AIRecognitionResult)
      (o : HybridOutput),
      hybrid_analyze u t m d aiStage = .ok o →
      ((o.source = .hybrid ↔
        u = true ∧ confidentPrediction t (predict_food m d) = true) ∧
       (o.source = .hybrid ∨ o.source = .openai)) := by
  intro u t m d aiStage o h
  unfold hybrid_analyze localStage at h
  cases u with
  | false =>
    cases aiStage with
    | error e => simp at h
    | ok ai =>
      simp only [Bool.false_eq_true, if_false, Except.ok.injEq] at h
      subst h
      simp [confidentPrediction]
  | true =>
    rcases hp : predict_food m d with e | cp <;> rw [hp] at h
    · simp at h
    · cases cp with
      | none =>
        cases aiStage with
        | error e => simp at h
        | ok ai =>
          simp only [if_true, Except.ok.injEq] at h
          subst h
          simp [confidentPrediction]
      | some p =>
        by_cases hc : t ≤ p.confidence
        · cases aiStage with
          | error e => simp [hc] at h
          | ok ai =>
            simp only [hc, if_true, Except.ok.injEq] at h
            subst h
            simp [confidentPrediction, hc]
        · cases aiStage with
          | error e => simp [hc] at h
          | ok ai =>
            simp only [hc, if_true, if_false, Except.ok.injEq] at h
            subst h
            simp [confidentPrediction, hc]

/-- Witness for C2: with the stage enabled, a loaded model and a
full-confidence prediction at threshold 1, the resolved source is
`hybrid`. -/
theorem hybrid_source_iff_local_confident_witness :
    ((HybridOutput.mk { sampleAI with source := .hybrid } (some samplePred)
        .hybrid).source = .hybrid ↔
      true = true ∧ confidentPrediction 1
        (predict_food (some fun _ => samplePred) (.ok [])) = true) ∧
    ((HybridOutput.mk { sampleAI with source := .hybrid } (some samplePred)
        .hybrid).source = .hybrid ∨
     (HybridOutput.mk { sampleAI with source := .hybrid } (some samplePred)
        .hybrid).source = .openai) :=
  hybrid_source_iff_local_confident true 1 (some fun _ => samplePred)
    (.ok []) (.ok sampleAI) _ rfl

/-- C7 counterexample: with the local stage enabled and a model loaded, a
decode failure on the input image propagates out of `hybrid_analyze`
(there is no try/except around `predict_food`) instead of degrading to an
estimator-only response. -/
theorem hybrid_local_decode_error_propagates :
    hybrid_analyze true 1 (some fun _ => samplePred) (.error .decodeError)
        (.ok sampleAI) = .error .decodeError ∧
    (hybrid_analyze true 1 (some fun _ => samplePred) (.error .decodeError)
        (.ok sampleAI)).isOk = false :=
  ⟨rfl, rfl⟩

/-- C7 amended: an unavailable local model (no checkpoint) is absorbed —
`predict_food` returns `None` before touching the image and the request
behaves exactly as if the local stage were disabled, proceeding
estimator-only — but a preprocessing/decode failure of the local stage,
with a model loaded, propagates unchanged and fails the whole request. -/
theorem hybrid_local_failure_handling_amended :
    (∀ (t : ℚ) (d : Except PyErr ImageTensor)
       (aiStage : Except PyErr AIRecognitionResult),
      hybrid_analyze true t none d aiStage =
        hybrid_analyze false t none d aiStage) ∧
    (∀ (t : ℚ) (m : Option (ImageTensor → CustomModelPrediction))
       (d : Except PyErr ImageTensor) (ai : AIRecognitionResult),
      hybrid_analyze false t m d (.ok ai) =
        .ok ⟨{ ai with source := .openai }, none, .openai⟩) ∧
    (∀ (t : ℚ) (net : ImageTensor → CustomModelPrediction) (e : PyErr)
       (aiStage : Except PyErr AIRecognitionResult),
      hybrid_analyze true t (some net) (.error e) aiStage = .error e) :=
  ⟨fun _ _ _ => rfl, fun _ _ _ _ => rfl, fun _ _ _ _ => rfl⟩

/-- A result returned by `analyze_food_image` carries macro totals equal to
the sums over its own food items (the totals are recomputed, lines 91-94 of
openai_service.py). -/
theorem analyze_food_image_totals (raw : String) (r : AIRecognitionResult)
    (h : analyze_food_image raw = .ok r) :
    r.total_calories = sumOver AIFoodItem.calories r.food_items ∧
    r.total_protein = sumOver AIFoodItem.protein r.food_items ∧
    r.total_carbs = sumOver AIFoodItem.carbs r.food_items ∧
    r.total_fat = sumOver AIFoodItem.fat r.food_items := by
  unfold analyze_food_image at h
  repeat' split at h
  all_goals first
    | exact Except.noConfusion h
    | (injection h with h'; subst h'; exact ⟨rfl, rfl, rfl, rfl⟩)

/-- The invariant between a food-log row and its child item rows: each
aggregate total equals the sum of that macro over the items. -/
def rowTotalsMatch (p : FoodLogRow × List FoodItemRow) : Prop :=
  p.1.total_calories = (p.2.map FoodItemRow.calories).sum ∧
  p.1.total_protein = (p.2.map FoodItemRow.protein).sum ∧
  p.1.total_carbs = (p.2.map FoodItemRow.carbs).sum ∧
  p.1.total_fat = (p.2.map FoodItemRow.fat).sum

/-- A model response carrying its own (wrong) top-level total, which the
parser must ignore. -/
def rawBogusTotal : String :=
  "\x7b\"total_calories\": 999, \"food_items\": [], \"overall_confidence\": 90\x7d"

/-- What `analyze_food_image` produces on `rawBogusTotal`: the totals are the
item sums (0), not the model's claimed 999. -/
def bogusResult : AIRecognitionResult :=
  ⟨[], 0, 0, 0, 0, 90, .openai, some rawBogusTotal⟩

/-- C4: every recognition result the estimator path produces has aggregate
totals equal to the per-macro sums over its food items, recomputed rather
than taken from the model's own total field (shown concretely: a response
claiming `total_calories: 999` over an empty item list yields total 0); and
the food-log rows built from either an estimator result or manual items
satisfy the same totals-equal-item-sums invariant. -/
theorem totals_recomputed_from_items :
    (∀ (raw : String) (r : AIRecognitionResult),
      analyze_food_image raw = .ok r →
        r.total_calories = sumOver AIFoodItem.calories r.food_items ∧
        r.total_protein = sumOver AIFoodItem.protein r.food_items ∧
        r.total_carbs = sumOver AIFoodItem.carbs r.food_items ∧
        r.total_fat = sumOver AIFoodItem.fat r.food_items) ∧
    (∀ (raw : String) (r : AIRecognitionResult) (uid : String)
       (url : Option String) (mt : String) (notes : Option String)
       (mi : Option (List FoodItemCreate)),
      analyze_food_image raw = .ok r →
        rowTotalsMatch (create_food_log uid (some r) url mt notes mi)) ∧
    (∀ (uid : String) (url : Option String) (mt : String)
       (notes : Option String) (ms : List FoodItemCreate),
      rowTotalsMatch (create_food_log uid none url mt notes (some ms))) ∧
    analyze_food_image rawBogusTotal = .ok bogusResult ∧
    (0 : ℚ) ≠ 999 := by
  refine ⟨analyze_food_image_totals, ?_, ?_, rfl, by decide⟩
  · intro raw r uid url mt notes mi h
    have hr := analyze_food_image_totals raw r h
    simpa [create_food_log, rowTotalsMatch, List.map_map, Function.comp,
      sumOver] using hr
  · intro uid url mt notes ms
    simp only [rowTotalsMatch, create_food_log, List.map_map]
    exact ⟨rfl, rfl, rfl, rfl⟩

/-- Witness for C4 at concrete inputs: the estimator result on
`rawBogusTotal`, the log row built from it, and a manual log row. -/
theorem totals_recomputed_from_items_witness :
    (bogusResult.total_calories =
        sumOver AIFoodItem.calories bogusResult.food_items ∧
      bogusResult.total_protein =
        sumOver AIFoodItem.protein bogusResult.food_items ∧
      bogusResult.total_carbs =
        sumOver AIFoodItem.carbs bogusResult.food_items ∧
      bogusResult.total_fat =
        sumOver AIFoodItem.fat bogusResult.food_items) ∧
    rowTotalsMatch (create_food_log "u1" (some bogusResult) none "lunch" none none) ∧
    rowTotalsMatch (create_food_log "u1" none none "lunch" none (some [])) :=
  ⟨totals_recomputed_from_items.1 rawBogusTotal bogusResult rfl,
   totals_recomputed_from_items.2.1 rawBogusTotal bogusResult "u1" none "lunch"
     none none rfl,
   totals_recomputed_from_items.2.2.1 "u1" none "lunch" none []⟩
